import Mathlib

/-!
Verification of the data-device / data-source / data-offer layer of
`client-toolkit` (`src/data_device/`).

The Rust code is a set of event handlers (`Dispatch::event` impls) that
mutate per-device state behind a mutex and invoke application callbacks,
plus small request-issuing wrappers.  We embed it as pure transition
functions from state and event to new state plus an ordered list of
observable effects (callbacks invoked and destroy/receive requests
issued).  Proxy objects (`WlDataOffer`, `WlSurface`, `WlDataSource`,
file descriptors) are identified by numeric ids.  The `f64` coordinates
are only ever stored and forwarded, never computed with, so they are
modelled by `Int`; the `u32` serial counter is modelled by `Nat` with
explicit reduction mod `2 ^ 32` where the source increments it.
-/

namespace ClientToolkit

/-- Coordinates (`f64` in the source; stored and forwarded only). -/
abbrev Coord := Int

/-- Identity of a `WlDataOffer` proxy object. -/
abbrev OfferId := Nat

/-- Identity of a `WlSurface` proxy object. -/
abbrev SurfaceId := Nat

/-- Modulus of the `u32` serial counter in `DataDeviceInner`. -/
def U32_MOD : Nat := 2 ^ 32

/-- `DnDDataOffer` (data_device.rs:26-33): drag-destination state held in
`DataDeviceInner.dnd_data_offer`. -/
structure DnDDataOffer where
  data_offer : Option OfferId
  serial : Nat
  surface : SurfaceId
  x : Coord
  y : Coord
  time : Option Nat
deriving Repr, DecidableEq

/-- `DataDeviceInner` (data_device.rs:18-23): per-device state behind the
mutex in `DataDeviceData`. -/
structure DataDeviceInner where
  dnd_data_offer : Option DnDDataOffer
  selection : Option OfferId
  serial : Nat
deriving Repr, DecidableEq

/-- `Default` for `DataDeviceInner`: empty slots, serial counter 0. -/
def DataDeviceInner.default : DataDeviceInner :=
  { dnd_data_offer := none, selection := none, serial := 0 }

/-- The `wl_data_device::Event` variants handled by the dispatch impl. -/
inductive DeviceEvent where
  | dataOffer (id : OfferId)
  | enter (serial : Nat) (surface : SurfaceId) (x y : Coord) (id : Option OfferId)
  | leave
  | motion (time : Nat) (x y : Coord)
  | dropEv
  | selection (id : Option OfferId)
deriving Repr, DecidableEq

/-- Observable effects of handling one `wl_data_device` event, in order:
destroy requests issued on offer proxies, and `DataDeviceHandler`
callbacks invoked on the application state. -/
inductive Effect where
  | destroyOffer (id : OfferId)
  | cbDataOffer (id : OfferId) (serial : Nat)
  | cbEnter (serial : Nat) (surface : SurfaceId) (x y : Coord) (id : Option OfferId)
  | cbLeave
  | cbMotion (time : Nat) (x y : Coord) (offer : OfferId)
  | cbDropPerformed (offer : OfferId) (serial : Nat) (surface : SurfaceId)
      (x y : Coord) (time : Option Nat)
  | cbSelection (id : Option OfferId)
deriving Repr, DecidableEq

/-- `Drop for DnDDataOffer` (data_device.rs:35-39): destroying the struct
destroys the held `WlDataOffer`, if any. -/
def DnDDataOffer.dropEffects (d : DnDDataOffer) : List Effect :=
  match d.data_offer with
  | some o => [.destroyOffer o]
  | none => []

/-- The `Dispatch<WlDataDevice, DataDeviceData, D>::event` body
(data_device.rs:137-234), arm by arm:

* `DataOffer`: read the local serial, increment the `u32` counter, invoke
  the `data_offer` callback with the offer and that serial.
* `Enter`: `inner.dnd_data_offer.replace(..)` installs the new state; the
  returned old `DnDDataOffer` is a discarded temporary, so its `Drop`
  destroys the old held offer before the `enter` callback runs.
* `Leave`: `inner.dnd_data_offer.take()` is discarded, destroying the held
  offer via `Drop`; then the `leave` callback runs.
* `Motion`: if drag state exists, position and time are updated in place,
  and the `motion` callback runs only when a concrete offer is held;
  with no drag state the event is ignored.
* `Drop`: state is read, never mutated (the `dbg!` only logs); the
  `drop_performed` callback runs only when a concrete offer is held,
  receiving the stored offer, serial, surface, position and time.
* `Selection`: the selection slot is replaced (or cleared), the previous
  holder is destroyed, then the `selection` callback runs with the new
  value. -/
def dataDeviceEvent (inner : DataDeviceInner) (ev : DeviceEvent) :
    DataDeviceInner × List Effect :=
  match ev with
  | .dataOffer id =>
      let serial := inner.serial
      ({ inner with serial := (serial + 1) % U32_MOD },
        [.cbDataOffer id serial])
  | .enter serial surface x y id =>
      let old := inner.dnd_data_offer
      ({ inner with dnd_data_offer := some ⟨id, serial, surface, x, y, none⟩ },
        (match old with
          | some d => d.dropEffects
          | none => []) ++ [.cbEnter serial surface x y id])
  | .leave =>
      let old := inner.dnd_data_offer
      ({ inner with dnd_data_offer := none },
        (match old with
          | some d => d.dropEffects
          | none => []) ++ [.cbLeave])
  | .motion newTime newX newY =>
      match inner.dnd_data_offer with
      | some d =>
          ({ inner with dnd_data_offer := some ({ d with x := newX, y := newY, time := some newTime }) },
            match d.data_offer with
            | some offer => [.cbMotion newTime newX newY offer]
            | none => [])
      | none => (inner, [])
  | .dropEv =>
      match inner.dnd_data_offer with
      | some d =>
          match d.data_offer with
          | some data_offer =>
              (inner, [.cbDropPerformed data_offer d.serial d.surface d.x d.y d.time])
          | none => (inner, [])
      | none => (inner, [])
  | .selection id =>
      match id with
      | some i =>
          let old := inner.selection
          ({ inner with selection := some i },
            (match old with
              | some o => [.destroyOffer o]
              | none => []) ++ [.cbSelection (some i)])
      | none =>
          let old := inner.selection
          ({ inner with selection := none },
            (match old with
              | some o => [.destroyOffer o]
              | none => []) ++ [.cbSelection none])

/-- Run a sequence of `wl_data_device` events, accumulating effects. -/
def run (inner : DataDeviceInner) : List DeviceEvent → DataDeviceInner × List Effect
  | [] => (inner, [])
  | ev :: rest =>
      let p := dataDeviceEvent inner ev
      let q := run p.1 rest
      (q.1, p.2 ++ q.2)

/-- The serials carried by `data_offer` callbacks, in emission order. -/
def offerSerials (es : List Effect) : List Nat :=
  es.filterMap fun e =>
    match e with
    | .cbDataOffer _ s => some s
    | _ => none

/-- Whether an event is a `data_offer` announcement. -/
def isDataOffer : DeviceEvent → Bool
  | .dataOffer _ => true
  | _ => false

/-- Number of `data_offer` announcements in an event sequence. -/
def countDataOffers (evs : List DeviceEvent) : Nat :=
  evs.countP isDataOffer

/-- The serial values a `u32` counter starting at `s` emits over `n`
announcements, each announcement incrementing it mod `2 ^ 32`. -/
def serialsFrom : Nat → Nat → List Nat
  | _, 0 => []
  | s, n + 1 => s :: serialsFrom ((s + 1) % U32_MOD) n

/-- `DndAction` bitset from `wl_data_device_manager` (copy / move / ask). -/
structure DndAction where
  copy : Bool
  move : Bool
  ask : Bool
deriving Repr, DecidableEq

/-- `WEnum<DndAction>` from `wayland_client`: a known bitset value, or an
unknown raw discriminant the generated code could not decode. -/
inductive WEnumDndAction where
  | value (a : DndAction)
  | unknown (raw : Nat)
deriving Repr, DecidableEq

/-- The `wl_data_source::Event` variants handled by the dispatch impl. -/
inductive SourceEvent where
  | target (mime : Option String)
  | send (mime : String) (fd : Nat)
  | cancelled
  | dndDropPerformed
  | dndFinished
  | action (a : WEnumDndAction)
deriving Repr, DecidableEq

/-- Observable effects of `wl_data_source` event handling and of source
handle disposal: the destroy request on the remote source object, and the
`DataSourceHandler` callbacks. -/
inductive SourceEffect where
  | destroySource
  | cbAcceptMime (mime : Option String)
  | cbSend (mime : String) (fd : Nat)
  | cbCancelled
  | cbDropPerformed
  | cbDndFinished
  | cbAction (a : DndAction)
deriving Repr, DecidableEq

/-- The `Dispatch<WlDataSource, DataSourceData, D>::event` body
(data_source.rs:76-109).  `Cancelled` destroys the source and then invokes
the `cancelled` callback; an `Action` event with an unknown discriminant
is dropped without invoking anything. -/
def dataSourceEvent : SourceEvent → List SourceEffect
  | .target mime => [.cbAcceptMime mime]
  | .send mime fd => [.cbSend mime fd]
  | .cancelled => [.destroySource, .cbCancelled]
  | .dndDropPerformed => [.cbDropPerformed]
  | .dndFinished => [.cbDndFinished]
  | .action (.value a) => [.cbAction a]
  | .action (.unknown _) => []

/-- `CopyPasteSource` (data_source.rs:112-116): client-side handle to a
copy-paste data source.  `serial` is `None` at creation (mod.rs:54) and no
code in the crate ever writes it afterwards. -/
structure CopyPasteSource where
  inner : Nat
  serial : Option Nat
deriving Repr, DecidableEq

/-- `DragSource` (data_source.rs:143-146). -/
structure DragSource where
  inner : Nat
deriving Repr, DecidableEq

/-- `Drop for CopyPasteSource` (data_source.rs:137-141): disposal of the
handle unconditionally destroys the inner `WlDataSource`. -/
def CopyPasteSource.dropEffects : List SourceEffect := [.destroySource]

/-- `Drop for DragSource` (data_source.rs:178-182): same unconditional
destroy on disposal. -/
def DragSource.dropEffects : List SourceEffect := [.destroySource]

/-- Dispatch a sequence of `wl_data_source` events, concatenating their
effects. -/
def dispatchAll : List SourceEvent → List SourceEffect
  | [] => []
  | ev :: rest => dataSourceEvent ev ++ dispatchAll rest

/-- All effects over the whole lifetime of a `CopyPasteSource` handle: the
events dispatched while it is alive, then its disposal (`Drop`). -/
def sourceLifetimeEffects (evs : List SourceEvent) : List SourceEffect :=
  dispatchAll evs ++ CopyPasteSource.dropEffects

/-- Number of destroy requests issued on the remote source object. -/
def destroySourceCount (es : List SourceEffect) : Nat :=
  es.count .destroySource

/-- Requests a `CopyPasteSource` issues on the data device. -/
inductive DeviceRequest where
  | setSelection (source : Option Nat) (serial : Nat)
deriving Repr, DecidableEq

/-- `CopyPasteSource::set_selection` (data_source.rs:121-123): issues
`device.set_selection(Some(inner), serial)`.  The method takes `&self`, so
the handle — including its `serial` field — is unchanged: the serial is
not recorded anywhere. -/
def CopyPasteSource.set_selection (s : CopyPasteSource) (serial : Nat) :
    CopyPasteSource × List DeviceRequest :=
  (s, [.setSelection (some s.inner) serial])

/-- `CopyPasteSource::unset_selection` (data_source.rs:126-130): issues a
clearing `set_selection(None, serial)` only when `self.serial` holds a
recorded serial. -/
def CopyPasteSource.unset_selection (s : CopyPasteSource) : List DeviceRequest :=
  match s.serial with
  | some serial => [.setSelection none serial]
  | none => []

/-- Modelled from the spec: the error class of `GlobalError` (`error.rs` is
not among the sources); the spec (§7) describes a recoverable
capability-not-ready error surfaced while the manager global is unbound. -/
inductive GlobalError where
  | notReady
deriving Repr, DecidableEq

/-- Modelled from the spec: `GlobalProxy` from the registry collaborator
(`registry.rs` is not among the sources); the spec (§9) describes a
NotReady/Bound state variant whose query operation fails explicitly while
NotReady. -/
inductive GlobalProxy (α : Type) where
  | notReady
  | bound (handle : α)
deriving Repr, DecidableEq

/-- Modelled from the spec: the capability query `GlobalProxy::get`. -/
def GlobalProxy.get {α : Type} : GlobalProxy α → Except GlobalError α
  | .notReady => .error .notReady
  | .bound h => .ok h

/-- Protocol-object allocation state of the connection: every constructor
request (`get_data_device`, `create_data_source`) sent through the
transport layer creates a fresh proxy object (spec §6: the core treats the
transport purely as "emit request R for object O"). -/
structure Conn where
  nextId : Nat
deriving Repr, DecidableEq

/-- `DataDeviceManagerState` (mod.rs:31-34): just the (possibly unbound)
manager global. -/
structure DataDeviceManagerState where
  manager : GlobalProxy Unit
deriving Repr, DecidableEq

/-- Requests issued through the manager. -/
inductive ManagerRequest where
  | getDataDevice (seat : Nat) (newId : Nat)
  | createDataSource (newId : Nat)
  | offerMime (sourceId : Nat) (mime : String)
deriving Repr, DecidableEq

/-- `DataDeviceManagerState::get_data_device` /
`get_data_device_with_data` (mod.rs:108-134): require the bound manager
(`self.manager.get()?`), then issue
`manager.get_data_device(seat, qh, data)`, which creates a fresh
data-device proxy.  There is no per-seat bookkeeping of any kind. -/
def get_data_device (st : DataDeviceManagerState) (c : Conn) (seat : Nat) :
    Except GlobalError (Nat × Conn × List ManagerRequest) :=
  match st.manager.get with
  | .error e => .error e
  | .ok _ => .ok (c.nextId, ⟨c.nextId + 1⟩, [.getDataDevice seat c.nextId])

/-- `DataDeviceManagerState::create_copy_paste_source` via
`create_data_source` (mod.rs:45-90): require the bound manager, create a
fresh source proxy, offer each mime type, and wrap the proxy in a
`CopyPasteSource` with `serial: None`. -/
def create_copy_paste_source (st : DataDeviceManagerState) (c : Conn)
    (mime_types : List String) :
    Except GlobalError (CopyPasteSource × Conn × List ManagerRequest) :=
  match st.manager.get with
  | .error e => .error e
  | .ok _ =>
      .ok (⟨c.nextId, none⟩, ⟨c.nextId + 1⟩,
        .createDataSource c.nextId :: mime_types.map (.offerMime c.nextId))

/-- Errno-style error from `pipe2` (resource exhaustion) or `close`. -/
abbrev Errno := Nat

/-- The requests and descriptor operations `receive` performs. -/
inductive ReceiveEffect where
  | receiveRequest (mime : String) (fd : Nat)
  | closeFd (fd : Nat)
deriving Repr, DecidableEq

/-- `receive(offer, mime_type)` (data_offer.rs:96-109).  `pipeResult` is
the outcome of `pipe2(O_CLOEXEC)`, which fails when no more descriptors
can be allocated; on that failure the error propagates (`?`) and nothing
else happens.  On success the function issues
`offer.receive(mime_type, writefd)`, then calls `close(writefd)` exactly
once — a close failure is only logged, so `closeAttemptFails` cannot
change the result — and returns the read end wrapped as a `ReadPipe`. -/
def receive (mime_type : String) (pipeResult : Except Errno (Nat × Nat))
    (_closeAttemptFails : Bool) : Except Errno Nat × List ReceiveEffect :=
  match pipeResult with
  | .error e => (.error e, [])
  | .ok (readfd, writefd) =>
      (.ok readfd, [.receiveRequest mime_type writefd, .closeFd writefd])

/-! ## Helper lemmas -/

theorem offerSerials_append (a b : List Effect) :
    offerSerials (a ++ b) = offerSerials a ++ offerSerials b := by
  simp [offerSerials, List.filterMap_append]

/-- Only the `DataOffer` arm touches the serial counter, incrementing it
mod `2 ^ 32`. -/
theorem dataDeviceEvent_serial (s : DataDeviceInner) (ev : DeviceEvent) :
    (dataDeviceEvent s ev).1.serial =
      if isDataOffer ev then (s.serial + 1) % U32_MOD else s.serial := by
  cases ev with
  | dataOffer id => simp [dataDeviceEvent, isDataOffer]
  | enter serial surface x y id => simp [dataDeviceEvent, isDataOffer]
  | leave => simp [dataDeviceEvent, isDataOffer]
  | motion t x y =>
      cases h : s.dnd_data_offer <;> simp [dataDeviceEvent, isDataOffer, h]
  | dropEv =>
      cases h : s.dnd_data_offer with
      | none => simp [dataDeviceEvent, isDataOffer, h]
      | some d => cases ho : d.data_offer <;> simp [dataDeviceEvent, isDataOffer, h, ho]
  | selection id =>
      cases id <;> simp [dataDeviceEvent, isDataOffer]

/-- Exactly the `DataOffer` arm emits a `data_offer` callback, carrying the
pre-increment counter value. -/
theorem offerSerials_dataDeviceEvent (s : DataDeviceInner) (ev : DeviceEvent) :
    offerSerials (dataDeviceEvent s ev).2 =
      if isDataOffer ev then [s.serial] else [] := by
  cases ev with
  | dataOffer id => simp [dataDeviceEvent, isDataOffer, offerSerials]
  | enter serial surface x y id =>
      cases h : s.dnd_data_offer with
      | none => simp [dataDeviceEvent, isDataOffer, offerSerials, h]
      | some d =>
          cases ho : d.data_offer <;>
            simp [dataDeviceEvent, isDataOffer, offerSerials, h, DnDDataOffer.dropEffects, ho]
  | leave =>
      cases h : s.dnd_data_offer with
      | none => simp [dataDeviceEvent, isDataOffer, offerSerials, h]
      | some d =>
          cases ho : d.data_offer <;>
            simp [dataDeviceEvent, isDataOffer, offerSerials, h, DnDDataOffer.dropEffects, ho]
  | motion t x y =>
      cases h : s.dnd_data_offer with
      | none => simp [dataDeviceEvent, isDataOffer, offerSerials, h]
      | some d =>
          cases ho : d.data_offer <;>
            simp [dataDeviceEvent, isDataOffer, offerSerials, h, ho]
  | dropEv =>
      cases h : s.dnd_data_offer with
      | none => simp [dataDeviceEvent, isDataOffer, offerSerials, h]
      | some d =>
          cases ho : d.data_offer <;>
            simp [dataDeviceEvent, isDataOffer, offerSerials, h, ho]
  | selection id =>
      cases id with
      | none =>
          cases h : s.selection <;> simp [dataDeviceEvent, isDataOffer, offerSerials, h]
      | some i =>
          cases h : s.selection <;> simp [dataDeviceEvent, isDataOffer, offerSerials, h]

/-- Over a whole event sequence, the emitted `data_offer` serials are the
successive values of the per-session counter. -/
theorem offerSerials_run (evs : List DeviceEvent) :
    ∀ s : DataDeviceInner,
      offerSerials (run s evs).2 = serialsFrom s.serial (countDataOffers evs) := by
  induction evs with
  | nil =>
      intro s
      simp [run, offerSerials, countDataOffers, serialsFrom]
  | cons ev rest ih =>
      intro s
      have h1 := offerSerials_dataDeviceEvent s ev
      have hr := ih (dataDeviceEvent s ev).1
      rw [dataDeviceEvent_serial s ev] at hr
      cases hb : isDataOffer ev with
      | false =>
          rw [hb] at h1 hr
          simp only [Bool.false_eq_true, if_false] at h1 hr
          simp only [run]
          rw [offerSerials_append, h1, hr]
          simp [countDataOffers, List.countP_cons, hb]
      | true =>
          rw [hb] at h1 hr
          simp only [if_true] at h1 hr
          simp only [run]
          rw [offerSerials_append, h1, hr]
          simp [countDataOffers, List.countP_cons, hb, serialsFrom]

/-- Starting the counter at `k % 2 ^ 32`, `n` announcements emit the range
from `k`, reduced mod `2 ^ 32`. -/
theorem serialsFrom_mod (n : Nat) :
    ∀ k, serialsFrom (k % U32_MOD) n = (List.range' k n).map (· % U32_MOD) := by
  induction n with
  | zero => intro k; simp [serialsFrom]
  | succ n ih =>
      intro k
      have hmod : (k % U32_MOD + 1) % U32_MOD = (k + 1) % U32_MOD := by
        simp only [U32_MOD]
        omega
      simp only [serialsFrom, hmod, ih (k + 1), List.range'_succ, List.map_cons]

/-- One source event issues a destroy request exactly when it is
`Cancelled`. -/
theorem destroySourceCount_event (ev : SourceEvent) :
    destroySourceCount (dataSourceEvent ev) =
      if ev = SourceEvent.cancelled then 1 else 0 := by
  cases ev with
  | target m => simp [dataSourceEvent, destroySourceCount]
  | send m fd => simp [dataSourceEvent, destroySourceCount]
  | cancelled => simp [dataSourceEvent, destroySourceCount]
  | dndDropPerformed => simp [dataSourceEvent, destroySourceCount]
  | dndFinished => simp [dataSourceEvent, destroySourceCount]
  | action a => cases a <;> simp [dataSourceEvent, destroySourceCount]

theorem destroySourceCount_append (a b : List SourceEffect) :
    destroySourceCount (a ++ b) = destroySourceCount a + destroySourceCount b := by
  simp [destroySourceCount, List.count_append]

/-! ## Claims -/

/-- C1: a `selection` event carrying a new offer B while offer A is held
destroys A, installs B, and then invokes the selection callback with B;
a `selection` event carrying no id while B is held destroys B, leaves the
slot empty, and invokes the callback with no value. -/
theorem selection_replace_and_clear (s : DataDeviceInner) (A B : OfferId) :
    (s.selection = some A →
      dataDeviceEvent s (.selection (some B)) =
        ({ s with selection := some B },
          [.destroyOffer A, .cbSelection (some B)])) ∧
    (s.selection = some B →
      dataDeviceEvent s (.selection none) =
        ({ s with selection := none },
          [.destroyOffer B, .cbSelection none])) := by
  constructor
  · intro h
    simp [dataDeviceEvent, h]
  · intro h
    simp [dataDeviceEvent, h]

/-- Witness for C1 at a concrete state holding offer 4. -/
theorem selection_replace_and_clear_witness :
    (DataDeviceInner.mk none (some 4) 0).selection = some 4 ∧
    dataDeviceEvent (DataDeviceInner.mk none (some 4) 0) (.selection (some 7)) =
      (DataDeviceInner.mk none (some 7) 0,
        [.destroyOffer 4, .cbSelection (some 7)]) :=
  ⟨rfl, (selection_replace_and_clear (DataDeviceInner.mk none (some 4) 0) 4 7).1 rfl⟩

/-- C2: a `leave` event clears the drag-destination state and destroys the
held drag offer; a `motion` or `drop` event arriving while no
drag-destination state exists leaves the state unchanged and invokes no
application callback. -/
theorem leave_destroys_and_stale_events_are_noops (s : DataDeviceInner) :
    ((dataDeviceEvent s .leave).1.dnd_data_offer = none) ∧
    (∀ d o, s.dnd_data_offer = some d → d.data_offer = some o →
      (dataDeviceEvent s .leave).2 = [.destroyOffer o, .cbLeave]) ∧
    (s.dnd_data_offer = none →
      (∀ t x y, dataDeviceEvent s (.motion t x y) = (s, [])) ∧
      dataDeviceEvent s .dropEv = (s, [])) := by
  refine ⟨?_, ?_, ?_⟩
  · simp [dataDeviceEvent]
  · intro d o hd ho
    simp [dataDeviceEvent, hd, DnDDataOffer.dropEffects, ho]
  · intro h
    exact ⟨fun t x y => by simp [dataDeviceEvent, h], by simp [dataDeviceEvent, h]⟩

/-- Witness for C2: leaving while dragging offer 3 destroys it, and
motion on a state with no drag-destination state is a no-op. -/
theorem leave_destroys_and_stale_events_are_noops_witness :
    ((DataDeviceInner.mk (some ⟨some 3, 1, 0, 5, 6, none⟩) none 4).dnd_data_offer =
        some ⟨some 3, 1, 0, 5, 6, none⟩ ∧
      (dataDeviceEvent (DataDeviceInner.mk (some ⟨some 3, 1, 0, 5, 6, none⟩) none 4)
          .leave).2 = [.destroyOffer 3, .cbLeave]) ∧
    ((DataDeviceInner.mk none (some 9) 4).dnd_data_offer = none ∧
      dataDeviceEvent (DataDeviceInner.mk none (some 9) 4) (.motion 7 1 2) =
        (DataDeviceInner.mk none (some 9) 4, [])) :=
  ⟨⟨rfl, (leave_destroys_and_stale_events_are_noops
      (DataDeviceInner.mk (some ⟨some 3, 1, 0, 5, 6, none⟩) none 4)).2.1
      ⟨some 3, 1, 0, 5, 6, none⟩ 3 rfl rfl⟩,
    ⟨rfl, ((leave_destroys_and_stale_events_are_noops
      (DataDeviceInner.mk none (some 9) 4)).2.2 rfl).1 7 1 2⟩⟩

/-- C5: a `drop` event never mutates the session state; it is ignored
(no callback) unless the drag-destination state holds a concrete offer, in
which case the application receives the stored offer, serial, surface,
position and optional timestamp; and the state installed by `enter`
records the event serial, surface and position with no timestamp. -/
theorem drop_requires_concrete_offer_and_hands_context (s : DataDeviceInner) :
    ((dataDeviceEvent s .dropEv).1 = s) ∧
    (s.dnd_data_offer = none → (dataDeviceEvent s .dropEv).2 = []) ∧
    (∀ d, s.dnd_data_offer = some d → d.data_offer = none →
      (dataDeviceEvent s .dropEv).2 = []) ∧
    (∀ d o, s.dnd_data_offer = some d → d.data_offer = some o →
      (dataDeviceEvent s .dropEv).2 =
        [.cbDropPerformed o d.serial d.surface d.x d.y d.time]) ∧
    (∀ serial surface x y id,
      (dataDeviceEvent s (.enter serial surface x y id)).1.dnd_data_offer =
        some ⟨id, serial, surface, x, y, none⟩) := by
  refine ⟨?_, ?_, ?_, ?_, ?_⟩
  · cases h : s.dnd_data_offer with
    | none => simp [dataDeviceEvent, h]
    | some d => cases ho : d.data_offer <;> simp [dataDeviceEvent, h, ho]
  · intro h
    simp [dataDeviceEvent, h]
  · intro d hd ho
    simp [dataDeviceEvent, hd, ho]
  · intro d o hd ho
    simp [dataDeviceEvent, hd, ho]
  · intro serial surface x y id
    simp [dataDeviceEvent]

/-- Witness for C5: after an enter at serial 1, surface 0, position (10, 20)
with offer 7 and no motion, drop hands back exactly that context with no
timestamp. -/
theorem drop_requires_concrete_offer_and_hands_context_witness :
    ((DataDeviceInner.mk (some ⟨some 7, 1, 0, 10, 20, none⟩) none 1).dnd_data_offer =
        some ⟨some 7, 1, 0, 10, 20, none⟩ ∧
      (dataDeviceEvent (DataDeviceInner.mk (some ⟨some 7, 1, 0, 10, 20, none⟩) none 1)
          .dropEv).2 = [.cbDropPerformed 7 1 0 10 20 none]) :=
  ⟨rfl, (drop_requires_concrete_offer_and_hands_context
      (DataDeviceInner.mk (some ⟨some 7, 1, 0, 10, 20, none⟩) none 1)).2.2.2.1
      ⟨some 7, 1, 0, 10, 20, none⟩ 7 rfl rfl⟩

/-- C6 counterexample: with a drag-destination state holding NO concrete
offer (a bare enter), a `motion` event still mutates the stored position
and timestamp, while invoking no callback.  The claim says the session
state is left entirely unchanged in this case. -/
theorem motion_updates_state_without_concrete_offer :
    (dataDeviceEvent (DataDeviceInner.mk (some ⟨none, 1, 0, 0, 0, none⟩) none 0)
        (.motion 5 2 3)).2 = [] ∧
    (dataDeviceEvent (DataDeviceInner.mk (some ⟨none, 1, 0, 0, 0, none⟩) none 0)
        (.motion 5 2 3)).1 ≠ DataDeviceInner.mk (some ⟨none, 1, 0, 0, 0, none⟩) none 0 := by
  exact ⟨rfl, by decide⟩

/-- C6 amended: a `motion` event updates the stored position and timestamp
whenever a drag-destination state exists, whether or not it holds a
concrete offer; the application callback fires only when a concrete offer
is held; with no drag-destination state the event is ignored and the state
is unchanged. -/
theorem motion_updates_whenever_drag_state_exists (s : DataDeviceInner)
    (t : Nat) (nx ny : Coord) :
    (s.dnd_data_offer = none → dataDeviceEvent s (.motion t nx ny) = (s, [])) ∧
    (∀ d, s.dnd_data_offer = some d →
      dataDeviceEvent s (.motion t nx ny) =
        ({ s with dnd_data_offer := some ({ d with x := nx, y := ny, time := some t }) },
          match d.data_offer with
          | some o => [.cbMotion t nx ny o]
          | none => [])) := by
  constructor
  · intro h
    simp [dataDeviceEvent, h]
  · intro d hd
    simp [dataDeviceEvent, hd]

/-- Witness for C6 amended: motion over a bare-enter state updates position
and time and fires no callback. -/
theorem motion_updates_whenever_drag_state_exists_witness :
    ((DataDeviceInner.mk (some ⟨none, 1, 0, 0, 0, none⟩) none 0).dnd_data_offer =
        some ⟨none, 1, 0, 0, 0, none⟩ ∧
      dataDeviceEvent (DataDeviceInner.mk (some ⟨none, 1, 0, 0, 0, none⟩) none 0)
          (.motion 5 2 3) =
        (DataDeviceInner.mk (some ⟨none, 1, 0, 2, 3, some 5⟩) none 0, [])) :=
  ⟨rfl, (motion_updates_whenever_drag_state_exists
      (DataDeviceInner.mk (some ⟨none, 1, 0, 0, 0, none⟩) none 0) 5 2 3).2
      ⟨none, 1, 0, 0, 0, none⟩ rfl⟩

/-- C7: starting from the default per-session state, as long as at most
`2 ^ 32` offers are announced (the counter is a `u32`), the serials handed
to the application's `data_offer` callback are exactly 0, 1, 2, ... in
announcement order — minted fresh, starting at 0, increasing by one per
announcement; and each announcement's only effect is that callback, so the
serial reaches the application before any mime-type traffic for the
offer. -/
theorem data_offer_serials_start_at_zero_and_increment (evs : List DeviceEvent)
    (h : countDataOffers evs ≤ U32_MOD) :
    offerSerials (run DataDeviceInner.default evs).2 =
      List.range (countDataOffers evs) ∧
    (∀ s id, dataDeviceEvent s (.dataOffer id) =
      ({ s with serial := (s.serial + 1) % U32_MOD }, [.cbDataOffer id s.serial])) := by
  constructor
  · have hrun := offerSerials_run evs DataDeviceInner.default
    have h0 : DataDeviceInner.default.serial = 0 % U32_MOD := by
      simp [DataDeviceInner.default]
    rw [h0] at hrun
    rw [hrun, serialsFrom_mod, List.range_eq_range']
    have hid : ∀ x ∈ List.range' 0 (countDataOffers evs), x % U32_MOD = x := by
      intro x hx
      have hlt : x < countDataOffers evs := by
        have := List.mem_range'_1.mp hx
        omega
      exact Nat.mod_eq_of_lt (lt_of_lt_of_le hlt h)
    calc (List.range' 0 (countDataOffers evs)).map (· % U32_MOD)
        = (List.range' 0 (countDataOffers evs)).map id := List.map_congr_left hid
      _ = List.range' 0 (countDataOffers evs) := List.map_id _
  · intro s id
    simp [dataDeviceEvent]

/-- Witness for C7 on a three-event trace with two announcements: the
emitted serials are 0 then 1. -/
theorem data_offer_serials_start_at_zero_and_increment_witness :
    countDataOffers [DeviceEvent.dataOffer 5, .leave, .dataOffer 9] ≤ U32_MOD ∧
    offerSerials (run DataDeviceInner.default
        [DeviceEvent.dataOffer 5, .leave, .dataOffer 9]).2 =
      List.range (countDataOffers [DeviceEvent.dataOffer 5, .leave, .dataOffer 9]) :=
  ⟨by decide,
    (data_offer_serials_start_at_zero_and_increment
      [DeviceEvent.dataOffer 5, .leave, .dataOffer 9] (by decide)).1⟩

/-- C3 counterexample: over the lifetime of a copy-paste source handle that
receives a `cancelled` event and is then disposed, the remote source
object receives TWO destroy requests — one from the `Cancelled` dispatch
arm and one from `Drop for CopyPasteSource` — not exactly one. -/
theorem cancelled_then_disposal_destroys_twice :
    destroySourceCount (sourceLifetimeEffects [SourceEvent.cancelled]) = 2 ∧
    destroySourceCount (sourceLifetimeEffects [SourceEvent.cancelled]) ≠ 1 := by
  decide

/-- C3 amended: the `Cancelled` arm destroys the remote source immediately,
and disposal of the handle unconditionally destroys it again, so over a
handle lifetime the number of destroy requests is the number of
`cancelled` events plus one — the later disposal is NOT suppressed after a
cancellation. -/
theorem destroy_count_is_cancelled_count_plus_one (evs : List SourceEvent) :
    destroySourceCount (sourceLifetimeEffects evs) =
      evs.count SourceEvent.cancelled + 1 := by
  induction evs with
  | nil => rfl
  | cons ev rest ih =>
      have hstep : sourceLifetimeEffects (ev :: rest) =
          dataSourceEvent ev ++ sourceLifetimeEffects rest := by
        simp [sourceLifetimeEffects, dispatchAll, List.append_assoc]
      rw [hstep, destroySourceCount_append, destroySourceCount_event, ih,
        List.count_cons]
      by_cases hev : ev = SourceEvent.cancelled
      · subst hev
        simp
        omega
      · simp [hev]

/-- C10: an `action` event whose value is an unknown discriminant is
silently discarded (no effect at all), and every action callback the
application ever observes carries a known `DndAction` value coming from a
decoded `action` event. -/
theorem app_observes_only_known_actions :
    (∀ raw, dataSourceEvent (.action (.unknown raw)) = []) ∧
    (∀ ev a, SourceEffect.cbAction a ∈ dataSourceEvent ev →
      ev = SourceEvent.action (.value a)) := by
  constructor
  · intro raw
    rfl
  · intro ev a h
    cases ev with
    | target m => simp [dataSourceEvent] at h
    | send m fd => simp [dataSourceEvent] at h
    | cancelled => simp [dataSourceEvent] at h
    | dndDropPerformed => simp [dataSourceEvent] at h
    | dndFinished => simp [dataSourceEvent] at h
    | action w =>
        cases w with
        | value b =>
            simp [dataSourceEvent] at h
            simp [h]
        | unknown raw => simp [dataSourceEvent] at h

/-- Witness for C10: the copy action observed through the callback comes
from the decoded `action` event carrying it. -/
theorem app_observes_only_known_actions_witness :
    (SourceEffect.cbAction ⟨true, false, false⟩ ∈
      dataSourceEvent (.action (.value ⟨true, false, false⟩))) ∧
    SourceEvent.action (WEnumDndAction.value ⟨true, false, false⟩) =
      SourceEvent.action (.value ⟨true, false, false⟩) :=
  ⟨by decide,
    app_observes_only_known_actions.2
      (.action (.value ⟨true, false, false⟩)) ⟨true, false, false⟩ (by decide)⟩

/-- C9 (code bug): creating a copy-paste source leaves `serial = None`,
`set_selection(device, 42)` issues the selection request but does not
record the serial (it takes `&self` and nothing in the crate ever writes
the field), so the following `unset_selection` finds no recorded serial
and issues no clearing request at all. -/
theorem set_selection_never_records_serial :
    create_copy_paste_source ⟨.bound ()⟩ ⟨5⟩ ["text/plain"] =
      .ok (⟨5, none⟩, ⟨6⟩,
        [.createDataSource 5, .offerMime 5 "text/plain"]) ∧
    ((CopyPasteSource.mk 5 none).set_selection 42).2 =
      [.setSelection (some 5) 42] ∧
    ((CopyPasteSource.mk 5 none).set_selection 42).1.serial = none ∧
    ((CopyPasteSource.mk 5 none).set_selection 42).1.unset_selection = [] :=
  ⟨rfl, rfl, rfl, rfl⟩

/-- C8 counterexample: with the manager bound, two consecutive
`get_data_device` calls for the same seat return two DIFFERENT data-device
objects — each call issues a fresh `get_data_device` request; nothing is
cached per seat. -/
theorem get_data_device_duplicates_per_seat :
    get_data_device ⟨.bound ()⟩ ⟨0⟩ 7 = .ok (0, ⟨1⟩, [.getDataDevice 7 0]) ∧
    get_data_device ⟨.bound ()⟩ ⟨1⟩ 7 = .ok (1, ⟨2⟩, [.getDataDevice 7 1]) ∧
    (0 : Nat) ≠ 1 := by
  refine ⟨rfl, rfl, by decide⟩

/-- C8 amended: `get_data_device` performs no per-seat caching: whenever
the manager global is bound, every call — same seat or not — creates and
returns a fresh data device; when the manager is not bound it fails with
the capability-not-ready error. -/
theorem get_data_device_always_creates_fresh (st : DataDeviceManagerState)
    (c : Conn) (seat : Nat) :
    (st.manager = .notReady → get_data_device st c seat = .error .notReady) ∧
    (st.manager = .bound () →
      get_data_device st c seat =
        .ok (c.nextId, ⟨c.nextId + 1⟩, [.getDataDevice seat c.nextId])) := by
  constructor
  · intro h
    simp [get_data_device, h, GlobalProxy.get]
  · intro h
    simp [get_data_device, h, GlobalProxy.get]

/-- Witness for C8 amended at a bound manager and seat 7. -/
theorem get_data_device_always_creates_fresh_witness :
    (DataDeviceManagerState.mk (.bound ())).manager = .bound () ∧
    get_data_device ⟨.bound ()⟩ ⟨3⟩ 7 = .ok (3, ⟨4⟩, [.getDataDevice 7 3]) :=
  ⟨rfl, (get_data_device_always_creates_fresh ⟨.bound ()⟩ ⟨3⟩ 7).2 rfl⟩

/-- C4: `receive` returns an IO error exactly when the pipe cannot be
allocated (and then performs nothing); on success it issues the receive
request carrying the write end, closes that write end exactly once, and
returns the read end — and a failing close cannot change the outcome. -/
theorem receive_error_iff_pipe_fails_and_closes_once (m : String)
    (pr : Except Errno (Nat × Nat)) (b : Bool) :
    (∀ e, pr = .error e → receive m pr b = (.error e, [])) ∧
    (∀ r w, pr = .ok (r, w) →
      receive m pr b = (.ok r, [.receiveRequest m w, .closeFd w]) ∧
      ((receive m pr b).2.count (.closeFd w)) = 1) ∧
    receive m pr true = receive m pr false := by
  refine ⟨?_, ?_, ?_⟩
  · intro e he
    simp [receive, he]
  · intro r w hw
    refine ⟨by simp [receive, hw], ?_⟩
    simp [receive, hw, List.count_cons]
  · cases pr with
    | error e => rfl
    | ok p => rfl

/-- Witness for C4: allocating the pipe as (read 3, write 4) for
text/plain issues the request with fd 4, closes fd 4 once, and returns
fd 3. -/
theorem receive_error_iff_pipe_fails_and_closes_once_witness :
    ((Except.ok (3, 4) : Except Errno (Nat × Nat)) = .ok (3, 4)) ∧
    receive "text/plain" (.ok (3, 4)) false =
      (.ok 3, [.receiveRequest "text/plain" 4, .closeFd 4]) :=
  ⟨rfl, ((receive_error_iff_pipe_fails_and_closes_once "text/plain"
      (.ok (3, 4)) false).2.1 3 4 rfl).1⟩

end ClientToolkit
